import Mathlib

/-!
Verification of the hangar_back provisioning/deprovisioning orchestrator.

The Rust sources are shallowly embedded: every external effect (container
runtime, primary/secondary SQL engines, git, GitHub HTTP API, scanner) is
represented by an outcome supplied in an environment record, and each
handler/service function is translated into a pure Lean function from its
inputs and that environment to its result, together with the trace of the
external operations it attempted and (for deploy) the resulting resource
state.  Machine strings are Lean `String`s; `f64` arithmetic in the metrics
code is modelled by exact rationals.
-/

namespace Hangar

/-! ## Error model (src/error.rs) -/

/-- The `ProjectErrorCode` from src/error.rs. -/
inductive ProjectErrorCode where
  | ProjectNameTaken
  | OwnerAlreadyExists
  | OwnerCannotBeParticipant
  | InvalidProjectName
  | InvalidImageUrl
  | ImagePullFailed
  | ImageScanFailed (report : String)
  | ContainerCreationFailed
  | DeleteFailed
  | InvalidGithubUrl
  | GithubAccountNotLinked
  | GithubRepoNotAccessible
  | GithubPackageNotPublic
  | ForbiddenEnvVar (name : String)
  | InvalidVolumePath
  | ProjectCreationFailedWithDatabaseError
  | InvalidSourceRootDir
  deriving DecidableEq, Repr

/-- The `DatabaseErrorCode` from src/error.rs. -/
inductive DatabaseErrorCode where
  | DatabaseAlreadyExists
  | ProvisioningFailed
  | DeprovisioningFailed
  | NotFound
  deriving DecidableEq, Repr

/-- The `AppError` from src/error.rs (variants reachable from the orchestrator). -/
inductive AppError where
  | InternalServerError
  | NotFound (msg : String)
  | Unauthorized (msg : String)
  | BadRequest (msg : String)
  | ProjectError (code : ProjectErrorCode)
  | DatabaseError (code : DatabaseErrorCode)
  deriving DecidableEq, Repr

/-! ## validation_service.rs -/

/-- The `validate_project_name`: empty, byte length > 63, non `[A-Za-z0-9-]`
characters, or a leading/trailing hyphen are rejected.  Rust `str::len` is the
UTF-8 byte length, modelled as the sum of the UTF-8 sizes of the characters. -/
def utf8Len (l : List Char) : Nat :=
  (l.map Char.utf8Size).sum

def nameCharOk (c : Char) : Bool :=
  c.isAlphanum || c == '-'

def validate_project_name (name : String) : Except AppError Unit :=
  if name.isEmpty then
    .error (.ProjectError .InvalidProjectName)
  else if utf8Len name.data > 63 then
    .error (.ProjectError .InvalidProjectName)
  else if !(name.data.all nameCharOk) then
    .error (.ProjectError .InvalidProjectName)
  else if name.data.head? == some '-' || name.data.getLast? == some '-' then
    .error (.ProjectError .InvalidProjectName)
  else
    .ok ()

/-- The `validate_image_url`: rejects the empty string and shell metacharacters. -/
def validate_image_url (url : String) : Except AppError Unit :=
  if url.isEmpty then
    .error (.ProjectError .InvalidImageUrl)
  else if url.data.any (fun c => " $\x60\x27\"\\".data.contains c) then
    .error (.ProjectError .InvalidImageUrl)
  else
    .ok ()

/-- Rust `str::starts_with`, modelled on the character list. -/
def strStartsWith (p s : String) : Bool :=
  p.data.isPrefixOf s.data

/-- Rust `str::to_uppercase` restricted to its ASCII action (the keys the
validator inspects are compared ASCII-case-insensitively). -/
def strToUpper (s : String) : String :=
  ⟨s.data.map Char.toUpper⟩

/-- Rust `str::to_lowercase` restricted to its ASCII action. -/
def strToLower (s : String) : String :=
  ⟨s.data.map Char.toLower⟩

/-- Rust `str::trim`. -/
def strTrim (s : String) : String :=
  ⟨((s.data.dropWhile Char.isWhitespace).reverse.dropWhile Char.isWhitespace).reverse⟩

/-- The `validate_env_vars`: the forbidden names, compared ASCII-case-insensitively,
plus every key whose uppercasing starts with `TRAEFIK_`.  The `HashMap` of the
Rust code is modelled as an association list; the first offending key (in list
order) is reported. -/
def FORBIDDEN_ENV_VARS : List String :=
  ["PATH", "LD_PRELOAD", "DOCKER_HOST", "HOST", "HOSTNAME", "TRAEFIK_ENABLE"]

def envKeyForbidden (key : String) : Bool :=
  FORBIDDEN_ENV_VARS.any (fun f => strToUpper key == strToUpper f) ||
    strStartsWith "TRAEFIK_" (strToUpper key)

def validate_env_vars (vars : List (String × String)) : Except AppError Unit :=
  match vars.find? (fun kv => envKeyForbidden kv.1) with
  | some kv => .error (.ProjectError (.ForbiddenEnvVar kv.1))
  | none => .ok ()

/-- The `validate_volume_path`. -/
def FORBIDDEN_PATHS : List String :=
  ["/", "/etc", "/bin", "/sbin", "/usr", "/boot", "/dev", "/lib", "/proc", "/sys"]

def validate_volume_path (path : String) : Except AppError Unit :=
  if path.isEmpty then
    .error (.ProjectError .InvalidVolumePath)
  else if path.data.head? != some '/' then
    .error (.ProjectError .InvalidVolumePath)
  else if decide (List.IsInfix "..".data path.data) then
    .error (.ProjectError .InvalidVolumePath)
  else if FORBIDDEN_PATHS.contains path then
    .error (.ProjectError .InvalidVolumePath)
  else
    .ok ()

/-- The acceptance predicate the spec states for project names: non-empty, at
most 63 characters, all ASCII alphanumeric or `-`, no leading or trailing `-`. -/
def specProjectNameOk (name : String) : Prop :=
  name ≠ "" ∧ name.data.length ≤ 63 ∧
    (∀ c ∈ name.data, c.isAlphanum = true ∨ c = '-') ∧
    name.data.head? ≠ some '-' ∧ name.data.getLast? ≠ some '-'

instance (name : String) : Decidable (specProjectNameOk name) := by
  unfold specProjectNameOk; infer_instance

/-! ## docker_service.rs: container/image removal and CPU metrics -/

/-- Outcome of one bollard runtime call, as observed by the error handling in
src/services/docker_service.rs: success, a `DockerResponseServerError` with its
HTTP status code, or any other bollard error. -/
inductive DockerResult where
  | ok
  | serverError (status_code : Nat)
  | otherError
  deriving DecidableEq, Repr

/-- The `remove_container` (docker_service.rs:167-200): the stop step tolerates 404
and 304 and logs (but never propagates) any other stop error; the remove step
tolerates 404 and maps any other failure to `InternalServerError`. -/
def remove_container (stopResp removeResp : DockerResult) : Except AppError Unit :=
  let _stopTolerated :=
    match stopResp with
    | .ok => true
    | .serverError c => c == 404 || c == 304
    | .otherError => false
  match removeResp with
  | .ok => .ok ()
  | .serverError c =>
      if c == 404 then .ok ()
      else .error .InternalServerError
  | .otherError => .error .InternalServerError

/-- The `remove_image` (docker_service.rs:202-221): any failure of the runtime
call, including a 404 for an absent image, becomes `InternalServerError`. -/
def remove_image (resp : DockerResult) : Except AppError Unit :=
  match resp with
  | .ok => .ok ()
  | _ => .error .InternalServerError

/-- The `CpuUsage` counters from the bollard stats response. -/
structure CpuUsage where
  total_usage : Option Nat
  deriving Repr

/-- The `CpuStats` from the bollard stats response. -/
structure CpuStats where
  cpu_usage : Option CpuUsage
  system_cpu_usage : Option Nat
  online_cpus : Option Nat
  deriving Repr

/-- The part of `ContainerStatsResponse` read by `calculate_cpu_percent`. -/
structure ContainerStatsResponse where
  cpu_stats : Option CpuStats
  precpu_stats : Option CpuStats
  deriving Repr

/-- The `calculate_cpu_percent` (docker_service.rs:337-368).  The `f64` arithmetic
is modelled by exact rationals; every missing counter short-circuits the inner
closure to `None`, and `unwrap_or(0.0)` maps that to 0. -/
def calculate_cpu_percent (stats : ContainerStatsResponse) : ℚ :=
  (do
    let cpu_stats ← stats.cpu_stats
    let precpu_stats ← stats.precpu_stats
    let cpu_usage ← cpu_stats.cpu_usage
    let precpu_usage ← precpu_stats.cpu_usage
    let total_usage ← cpu_usage.total_usage
    let pre_total_usage ← precpu_usage.total_usage
    let cpu_delta : ℚ := (total_usage : ℚ) - (pre_total_usage : ℚ)
    let system ← cpu_stats.system_cpu_usage
    let presystem ← precpu_stats.system_cpu_usage
    let system_cpu_delta : ℚ := (system : ℚ) - (presystem : ℚ)
    let number_of_cpus : ℚ := ((cpu_stats.online_cpus.getD 1 : Nat) : ℚ)
    if system_cpu_delta > 0 ∧ cpu_delta > 0 then
      pure ((cpu_delta / system_cpu_delta) * number_of_cpus * 100)
    else
      pure 0).getD 0

/-! ## crypto_service.rs -/

/-- The `NONCE_SIZE` (96-bit AES-GCM nonce). -/
def NONCE_SIZE : Nat := 12

/-- The AES-256-GCM primitive of the `aes_gcm` crate, an external collaborator:
an authenticated cipher given by encryption and decryption maps over byte
sequences (key, nonce, message), with its round-trip contract. -/
structure AeadCipher where
  enc : List Nat → List Nat → List Nat → List Nat
  dec : List Nat → List Nat → List Nat → Option (List Nat)
  dec_enc : ∀ k n m, dec k n (enc k n m) = some m

/-- The UTF-8 conversions of the Rust standard library (`str::as_bytes` and
`String::from_utf8`), an external collaborator: an encoding of strings to byte
sequences whose decoder recovers every encoded string. -/
structure Utf8Codec where
  toBytes : String → List Nat
  ofBytes : List Nat → Option String
  ofBytes_toBytes : ∀ s, ofBytes (toBytes s) = some s

/-- The `encrypt` (crypto_service.rs:10-28): encrypt the plaintext bytes under the
freshly generated nonce and return the nonce prepended to the ciphertext.  The
random nonce is an input of the model. -/
def encrypt (C : AeadCipher) (U : Utf8Codec) (nonce : List Nat)
    (plaintext : String) (key : List Nat) : List Nat :=
  nonce ++ C.enc key nonce (U.toBytes plaintext)

/-- The `decrypt` (crypto_service.rs:30-53): inputs shorter than the nonce are
rejected; otherwise split off the nonce, decrypt, and validate UTF-8.  Every
failure is the generic `InternalServerError`. -/
def decrypt (C : AeadCipher) (U : Utf8Codec) (ciphertext_with_nonce : List Nat)
    (key : List Nat) : Except AppError String :=
  if ciphertext_with_nonce.length < NONCE_SIZE then
    .error .InternalServerError
  else
    match C.dec key (ciphertext_with_nonce.take NONCE_SIZE)
        (ciphertext_with_nonce.drop NONCE_SIZE) with
    | none => .error .InternalServerError
    | some plaintext_bytes =>
        match U.ofBytes plaintext_bytes with
        | none => .error .InternalServerError
        | some s => .ok s

/-- A concrete cipher satisfying the AEAD round-trip contract, used to
instantiate hypotheses at concrete inputs. -/
def idCipher : AeadCipher where
  enc := fun _ _ m => m
  dec := fun _ _ c => some c
  dec_enc := fun _ _ _ => rfl

/-- A concrete codec (code points as bytes) satisfying the round-trip
contract, used to instantiate hypotheses at concrete inputs. -/
def charCodec : Utf8Codec where
  toBytes := fun s => s.data.map Char.toNat
  ofBytes := fun l => some (String.mk (l.map Char.ofNat))
  ofBytes_toBytes := fun s => by
    simp [List.map_map, Function.comp_def, Char.ofNat_toNat]

/-! ## database_service.rs -/

/-- The `DB_PREFIX`. -/
def DB_PREFIX : String := "hangardb"

/-- The character set accepted by `valid_identifier`
(database_service.rs:17-25). -/
def identifierChars : List Char :=
  "abcdefghijklmnopqrstuvwxyzABCDEFGHIJKLMNOPQRSTUVWXYZ0123456789_".data

/-- The `valid_identifier`: non-empty and all characters in `[A-Za-z0-9_]`. -/
def valid_identifier (s : String) : Bool :=
  if s.isEmpty then false
  else s.data.all (fun c => identifierChars.contains c)

/-- The database/user name `provision_database` and
`provision_and_link_database_tx` derive from the owner identity. -/
def derivedDbName (owner_login : String) : String :=
  DB_PREFIX ++ "_" ++ owner_login

/-- Outcomes of the secondary-engine (MariaDB) calls made by
`execute_mariadb_provisioning` and `execute_mariadb_deprovisioning`. -/
structure MariaEnv where
  acquireOk : Bool
  createDbOk : Bool
  createUserOk : Bool
  grantOk : Bool
  dropDbOk : Bool
  dropUserOk : Bool
  deriving Repr

/-- The `CREATE DATABASE` statement string built by
`execute_mariadb_provisioning`. -/
def createDatabaseSql (db_name : String) : String :=
  "CREATE DATABASE `" ++ db_name ++ "` CHARACTER SET utf8mb4 COLLATE utf8mb4_general_ci"

/-- The `CREATE USER` statement string (the password is bound, not
interpolated). -/
def createUserSql (username : String) : String :=
  "CREATE USER `" ++ username ++ "`@" ++ "\x27%\x27 IDENTIFIED BY ?"

/-- The `GRANT` statement string. -/
def grantSql (db_name username : String) : String :=
  "GRANT ALL PRIVILEGES ON `" ++ db_name ++ "`.* TO `" ++ username ++ "`@" ++ "\x27%\x27"

/-- The `DROP DATABASE IF EXISTS` statement string. -/
def dropDatabaseSql (db_name : String) : String :=
  "DROP DATABASE IF EXISTS `" ++ db_name ++ "`"

/-- The `DROP USER IF EXISTS` statement string. -/
def dropUserSql (username : String) : String :=
  "DROP USER IF EXISTS `" ++ username ++ "`@" ++ "\x27%\x27"

/-- The `execute_mariadb_provisioning` (database_service.rs:135-171): the
identifier check precedes connection acquisition and every DDL statement; the
result is paired with the list of DDL strings actually submitted to the
secondary engine, in submission order. -/
def execute_mariadb_provisioning (env : MariaEnv) (db_name username : String) :
    Except AppError Unit × List String :=
  if !(valid_identifier db_name) || !(valid_identifier username) then
    (.error (.BadRequest "Invalid identifier"), [])
  else if !env.acquireOk then
    (.error (.DatabaseError .ProvisioningFailed), [])
  else if !env.createDbOk then
    (.error (.DatabaseError .ProvisioningFailed), [createDatabaseSql db_name])
  else if !env.createUserOk then
    (.error (.DatabaseError .ProvisioningFailed),
      [createDatabaseSql db_name, createUserSql username])
  else if !env.grantOk then
    (.error (.DatabaseError .ProvisioningFailed),
      [createDatabaseSql db_name, createUserSql username, grantSql db_name username])
  else
    (.ok (), [createDatabaseSql db_name, createUserSql username, grantSql db_name username])

/-- The `execute_mariadb_deprovisioning` (database_service.rs:173-194), with the
same identifier guard and DDL trace. -/
def execute_mariadb_deprovisioning (env : MariaEnv) (db_name username : String) :
    Except AppError Unit × List String :=
  if !(valid_identifier db_name) || !(valid_identifier username) then
    (.error (.BadRequest "Invalid identifier"), [])
  else if !env.acquireOk then
    (.error (.DatabaseError .DeprovisioningFailed), [])
  else if !env.dropDbOk then
    (.error (.DatabaseError .DeprovisioningFailed), [dropDatabaseSql db_name])
  else if !env.dropUserOk then
    (.error (.DatabaseError .DeprovisioningFailed),
      [dropDatabaseSql db_name, dropUserSql username])
  else
    (.ok (), [dropDatabaseSql db_name, dropUserSql username])

/-! ## github_service.rs -/

/-- Rust `s.contains(needle)` on strings. -/
def containsSub (needle hay : String) : Bool :=
  decide (List.IsInfix needle.data hay.data)

/-- Rust `str::trim_start_matches`: repeatedly remove the leading pattern.
Each removal of a non-empty pattern shortens the list, so the list's length
bounds the number of removals and serves as structural fuel. -/
def stripPrefixAllAux : Nat → List Char → List Char → List Char
  | 0, _, l => l
  | fuel + 1, pat, l =>
      if pat.isPrefixOf l && !pat.isEmpty then
        stripPrefixAllAux fuel pat (l.drop pat.length)
      else l

def stripPrefixAll (pat : List Char) (l : List Char) : List Char :=
  stripPrefixAllAux l.length pat l

/-- Rust `str::trim_end_matches`: repeatedly remove the trailing pattern. -/
def stripSuffixAll (pat : List Char) (l : List Char) : List Char :=
  (stripPrefixAll pat.reverse l.reverse).reverse

/-- Outcome of the blocking git2 clone performed by `clone_repo`: success, a
git error with its message, or a failure of the blocking-task join. -/
inductive CloneOutcome where
  | ok
  | gitError (msg : String)
  | joinError
  deriving DecidableEq, Repr

/-- The `clone_repo` (github_service.rs:203-250): a git failure whose lowercased
message mentions an authentication problem is classified as
`GithubAccountNotLinked`; every other git failure is the generic bad-request
clone error; a join failure is `InternalServerError`. -/
def clone_repo (outcome : CloneOutcome) : Except AppError Unit :=
  match outcome with
  | .ok => .ok ()
  | .joinError => .error .InternalServerError
  | .gitError msg =>
      let m := strToLower msg
      if containsSub "authentication required" m ||
          containsSub "credentials callback returned an error" m then
        .error (.ProjectError .GithubAccountNotLinked)
      else
        .error (.BadRequest "Failed to clone repository. Check if the URL is correct.")

/-- The `extract_repo_owner_and_name` (github_service.rs:39-78). -/
def extract_repo_owner_and_name (repo_url : String) :
    Except AppError (String × String) :=
  let url := strTrim repo_url
  if !(containsSub "github.com" url) then
    .error (.BadRequest "Only GitHub repositories are supported. URL must contain \x27github.com\x27.")
  else
    let url_without_protocol :=
      stripPrefixAll "www.".data
        (stripPrefixAll "http://".data (stripPrefixAll "https://".data url.data))
    let parts :=
      (stripSuffixAll ".git".data (stripSuffixAll "/".data url_without_protocol)).splitOn '/'
    if parts.length < 3 then
      .error (.BadRequest "Invalid GitHub repository URL format. Expected: https://github.com/username/repository")
    else
      let owner := String.mk (parts.getD 1 [])
      let repo_name := String.mk (parts.getD 2 [])
      if owner.isEmpty || repo_name.isEmpty then
        .error (.BadRequest "GitHub owner and repository name cannot be empty in the URL.")
      else
        .ok (owner, repo_name)

/-! ## Effects and records shared by the handlers -/

/-- One external operation attempted by a handler, recorded in order in the
traces below. -/
inductive Effect where
  | readOwnerExists
  | readNameExists
  | readDbExists
  | pullImage (url : String)
  | scanImage (tag : String)
  | removeImage (tag : String)
  | cloneRepo (authenticated : Bool)
  | githubApi
  | buildImage (tag : String)
  | createContainer (name : String)
  | removeContainer (name : String)
  | removeVolume (name : String)
  | beginTx
  | insertProject
  | insertDatabase
  | insertParticipants
  | rollbackTx
  | commitTx
  | mariaDdl (sql : String)
  | deleteDbRow
  | deleteProjectRow
  deriving DecidableEq, Repr

/-- Read-only metadata queries (the fast-reject checks). -/
def Effect.isRead : Effect → Bool
  | .readOwnerExists | .readNameExists | .readDbExists => true
  | _ => false

/-- Container-runtime operations. -/
def Effect.isRuntimeOp : Effect → Bool
  | .pullImage _ | .scanImage _ | .removeImage _ | .buildImage _
  | .createContainer _ | .removeContainer _ | .removeVolume _ => true
  | _ => false

/-- Metadata writes and transaction control on either SQL engine. -/
def Effect.isMetaWrite : Effect → Bool
  | .beginTx | .insertProject | .insertDatabase | .insertParticipants
  | .rollbackTx | .commitTx | .mariaDdl _ | .deleteDbRow | .deleteProjectRow => true
  | _ => false

def Effect.isCreateContainer : Effect → Bool
  | .createContainer _ => true
  | _ => false

/-- The fields of a `Project` row read by the purge and deploy handlers.  The
struct checked in at src/model/project.rs predates the handler; the volume
fields follow the handler's accesses and the spec's data model. -/
structure Project where
  id : Int
  name : String
  owner : String
  container_name : String
  deployed_image_tag : String
  persistent_volume_path : Option String
  volume_name : Option String
  deriving DecidableEq, Repr

/-- The fields of a `Database` row (src/model/database.rs) the orchestrator
reads. -/
structure DatabaseRec where
  id : Int
  owner_login : String
  database_name : String
  username : String
  project_id : Option Int
  deriving DecidableEq, Repr

/-! ## deprovision_database (database_service.rs:109-133) -/

/-- Outcomes of the external calls made by `deprovision_database`. -/
structure DeprovEnv where
  dbLookup : Option DatabaseRec
  maria : MariaEnv
  deleteDbRowOk : Bool
  deriving Repr

/-- The `deprovision_database`: look up the record by id and owner, run the
secondary-engine teardown, then delete the metadata row; the metadata delete
happens only after the secondary-engine teardown succeeded. -/
def deprovision_database (env : DeprovEnv) : Except AppError Unit × List Effect :=
  match env.dbLookup with
  | none => (.error (.DatabaseError .NotFound), [])
  | some rec =>
      let step := execute_mariadb_deprovisioning env.maria rec.database_name rec.username
      let trace := step.2.map Effect.mariaDdl
      match step.1 with
      | .error e => (.error e, trace)
      | .ok _ =>
          if !env.deleteDbRowOk then
            (.error .InternalServerError, trace ++ [.deleteDbRow])
          else
            (.ok (), trace ++ [.deleteDbRow])

/-! ## purge_project_handler (project_handler.rs:333-382) -/

/-- Outcomes of the external calls made by `purge_project_handler`.
`removeVolume` stands for `docker_service::remove_volume_by_name`, whose body
is not in the checked-in docker_service.rs; it is an opaque step whose outcome
the environment supplies. -/
structure PurgeEnv where
  projectLookup : Option Project
  linkedDb : Option DatabaseRec
  deprov : DeprovEnv
  stopContainerResp : DockerResult
  removeContainerResp : DockerResult
  removeVolumeResult : Option AppError
  removeImageResp : DockerResult
  deleteProjectRowResult : Option AppError
  deriving Repr

/-- The `purge_project_handler`: ownership lookup, tenant-database deprovisioning
when one is linked, container removal, volume removal when a persistent path
is recorded, image removal, and last the metadata delete; every step's failure
returns immediately. -/
def purge_project_handler (env : PurgeEnv) (project_id : Int) :
    Except AppError Unit × List Effect :=
  match env.projectLookup with
  | none =>
      (.error (.NotFound ("Project with ID " ++ toString project_id ++
        " not found or you are not the owner.")), [])
  | some project =>
      let dbStep : Except AppError Unit × List Effect :=
        match env.linkedDb with
        | some _db => deprovision_database env.deprov
        | none => (.ok (), [])
      match dbStep.1 with
      | .error e => (.error e, dbStep.2)
      | .ok _ =>
          let trace1 := dbStep.2 ++ [.removeContainer project.container_name]
          match remove_container env.stopContainerResp env.removeContainerResp with
          | .error e => (.error e, trace1)
          | .ok _ =>
              let volStep : Except AppError Unit × List Effect :=
                if project.persistent_volume_path.isSome then
                  match project.volume_name with
                  | none => (.error .InternalServerError, [])
                  | some vn =>
                      match env.removeVolumeResult with
                      | some e => (.error e, [.removeVolume vn])
                      | none => (.ok (), [.removeVolume vn])
                else (.ok (), [])
              match volStep.1 with
              | .error e => (.error e, trace1 ++ volStep.2)
              | .ok _ =>
                  let trace2 := trace1 ++ volStep.2 ++ [.removeImage project.deployed_image_tag]
                  match remove_image env.removeImageResp with
                  | .error e => (.error e, trace2)
                  | .ok _ =>
                      let trace3 := trace2 ++ [.deleteProjectRow]
                      match env.deleteProjectRowResult with
                      | some e => (.error e, trace3)
                      | none => (.ok (), trace3)

/-! ## Source preparation (project_handler.rs:240-331) -/

/-- The shape of a bollard pull failure as inspected by
`prepare_direct_source`: a `DockerResponseServerError` with its status code,
or any other bollard error. -/
inductive BollardError where
  | dockerResponseServerError (status_code : Nat)
  | other
  deriving DecidableEq, Repr

/-- Outcomes of the external grype invocation (`scan_image_with_grype`,
docker_service.rs:49-77). -/
structure ScanEnv where
  spawnOk : Bool
  exitSuccess : Bool
  report : String
  deriving DecidableEq, Repr

/-- The `scan_image_with_grype`: a spawn failure is an internal error; a non-zero
exit carries the captured report in `ImageScanFailed`. -/
def scan_image_with_grype (env : ScanEnv) : Except AppError Unit :=
  if !env.spawnOk then .error .InternalServerError
  else if !env.exitSuccess then .error (.ProjectError (.ImageScanFailed env.report))
  else .ok ()

/-- Outcomes of the external calls made by `prepare_direct_source`. -/
structure DirectEnv where
  pullResult : Option BollardError
  scan : ScanEnv
  removePulledImageResp : DockerResult
  deriving DecidableEq, Repr

/-- Result of source preparation: the image tag or the error, the trace, and
whether an image tagged with the derived reference is present afterwards. -/
structure PrepResult where
  result : Except AppError String
  trace : List Effect
  imagePresent : Bool
  deriving Repr

/-- The `prepare_direct_source` (project_handler.rs:240-274): validate the
reference, pull; a pull failure against a `ghcr.io/` reference with HTTP
status 401 or 403 becomes `GithubPackageNotPublic`, any other pull failure
`ImagePullFailed`; then scan, removing the pulled image (best effort) when the
scan fails. -/
def prepare_direct_source (env : DirectEnv) (image_url : String) : PrepResult :=
  match validate_image_url image_url with
  | .error e => ⟨.error e, [], false⟩
  | .ok _ =>
      match env.pullResult with
      | some e =>
          if strStartsWith "ghcr.io/" image_url &&
              (e == .dockerResponseServerError 401 || e == .dockerResponseServerError 403) then
            ⟨.error (.ProjectError .GithubPackageNotPublic), [.pullImage image_url], false⟩
          else
            ⟨.error (.ProjectError .ImagePullFailed), [.pullImage image_url], false⟩
      | none =>
          match scan_image_with_grype env.scan with
          | .error scan_error =>
              ⟨.error scan_error,
                [.pullImage image_url, .scanImage image_url, .removeImage image_url],
                !(remove_image env.removePulledImageResp matches .ok _)⟩
          | .ok _ =>
              ⟨.ok image_url, [.pullImage image_url, .scanImage image_url], true⟩

/-- Outcomes of the external calls made by `prepare_github_source`.
`create_tarball` and `build_image_from_tar` are not in the checked-in
docker_service.rs; they are opaque steps whose outcomes the environment
supplies (a failing build yields the error the environment carries). -/
structure GithubEnv where
  tempDirOk : Bool
  unauthClone : CloneOutcome
  installationLookup : Except AppError Nat
  tokenExchange : Except AppError String
  accessibility : Except AppError Unit
  authClone : CloneOutcome
  dockerfileWriteOk : Bool
  tarballOk : Bool
  buildResult : Option AppError
  scan : ScanEnv
  removeBuiltImageResp : DockerResult
  deriving Repr

/-- The deterministic tag `prepare_github_source` builds. -/
def image_tag_for (project_name : String) : String :=
  "hangar-local/" ++ project_name ++ ":latest"

/-- Result of `prepare_github_source`, additionally recording whether the
authenticated fallback path was entered. -/
structure GhPrepResult where
  result : Except AppError String
  trace : List Effect
  imagePresent : Bool
  fallbackAttempted : Bool
  deriving Repr

/-- The build/scan phase shared by both clone paths of
`prepare_github_source` (project_handler.rs:312-330). -/
def githubBuildPhase (env : GithubEnv) (project_name : String)
    (pre : List Effect) (fb : Bool) : GhPrepResult :=
  let tag := image_tag_for project_name
  if !env.dockerfileWriteOk then ⟨.error .InternalServerError, pre, false, fb⟩
  else if !env.tarballOk then ⟨.error .InternalServerError, pre, false, fb⟩
  else
    match env.buildResult with
    | some e => ⟨.error e, pre ++ [.buildImage tag], false, fb⟩
    | none =>
        match scan_image_with_grype env.scan with
        | .error scan_error =>
            ⟨.error scan_error,
              pre ++ [.buildImage tag, .scanImage tag, .removeImage tag],
              !(remove_image env.removeBuiltImageResp matches .ok _), fb⟩
        | .ok _ =>
            ⟨.ok tag, pre ++ [.buildImage tag, .scanImage tag], true, fb⟩

/-- The authenticated fallback path of `prepare_github_source`
(project_handler.rs:295-305): parse the URL, find the installation, mint an
installation token, check repository accessibility, clone with the token. -/
def githubFallbackPhase (env : GithubEnv) (project_name repo_url : String)
    (pre : List Effect) : GhPrepResult :=
  match extract_repo_owner_and_name repo_url with
  | .error e => ⟨.error e, pre, false, true⟩
  | .ok _owner_repo =>
      match env.installationLookup with
      | .error e => ⟨.error e, pre ++ [.githubApi], false, true⟩
      | .ok _installation_id =>
          match env.tokenExchange with
          | .error e => ⟨.error e, pre ++ [.githubApi, .githubApi], false, true⟩
          | .ok _token =>
              match env.accessibility with
              | .error e => ⟨.error e, pre ++ [.githubApi, .githubApi, .githubApi], false, true⟩
              | .ok _ =>
                  let pre2 := pre ++ [.githubApi, .githubApi, .githubApi, .cloneRepo true]
                  match clone_repo env.authClone with
                  | .error e => ⟨.error e, pre2, false, true⟩
                  | .ok _ => githubBuildPhase env project_name pre2 true

/-- The `prepare_github_source` (project_handler.rs:276-331): try an
unauthenticated clone; on `GithubAccountNotLinked` or any `BadRequest` failure
enter the authenticated fallback; propagate every other clone error directly;
then build and scan. -/
def prepare_github_source (env : GithubEnv) (project_name repo_url : String) :
    GhPrepResult :=
  if !env.tempDirOk then ⟨.error .InternalServerError, [], false, false⟩
  else
    match clone_repo env.unauthClone with
    | .ok _ => githubBuildPhase env project_name [.cloneRepo false] false
    | .error (.ProjectError .GithubAccountNotLinked) =>
        githubFallbackPhase env project_name repo_url [.cloneRepo false]
    | .error (.BadRequest _) =>
        githubFallbackPhase env project_name repo_url [.cloneRepo false]
    | .error e => ⟨.error e, [.cloneRepo false], false, false⟩

/-- The error-classification `prepare_github_source` applies to the
unauthenticated clone result: exactly `GithubAccountNotLinked` and
`BadRequest` failures divert into the authenticated fallback. -/
def fallbackTrigger : Except AppError Unit → Bool
  | .error (.ProjectError .GithubAccountNotLinked) => true
  | .error (.BadRequest _) => true
  | _ => false

/-- The `provision_and_link_database_tx` (database_service.rs:259-300): derive
database name = username from the owner, run the secondary-engine
provisioning (compensating it on failure), then insert the metadata row with
the project link inside the open transaction.  `insertOk` is the outcome of
that insert; its failure is NOT compensated on the secondary engine.  The
trace lists the DDL submitted to the secondary engine and the metadata
insert. -/
def provision_and_link_database_tx (menv : MariaEnv) (insertOk : Bool)
    (owner_login : String) : Except AppError Unit × List Effect :=
  let db_name := derivedDbName owner_login
  let username := db_name
  let prov := execute_mariadb_provisioning menv db_name username
  match prov.1 with
  | .error e =>
      let comp := execute_mariadb_deprovisioning menv db_name username
      (.error e, (prov.2 ++ comp.2).map Effect.mariaDdl)
  | .ok _ =>
      if !insertOk then
        (.error (.ProjectError .ProjectCreationFailedWithDatabaseError),
          prov.2.map Effect.mariaDdl ++ [.insertDatabase])
      else
        (.ok (), prov.2.map Effect.mariaDdl ++ [.insertDatabase])

/-- The `provision_database` (database_service.rs:47-107): reject when the owner
already has a database, derive database name = username, provision on the
secondary engine (rolling back on failure), then insert the metadata row; a
failing insert spawns a background deprovisioning and reports the generic
internal error. -/
def provision_database (dbExists : Bool) (menv : MariaEnv) (insertOk : Bool)
    (owner_login : String) : Except AppError Unit × List Effect :=
  if dbExists then (.error (.DatabaseError .DatabaseAlreadyExists), [])
  else
    let db_name := derivedDbName owner_login
    let username := db_name
    let prov := execute_mariadb_provisioning menv db_name username
    match prov.1 with
    | .error e =>
        let comp := execute_mariadb_deprovisioning menv db_name username
        (.error e, (prov.2 ++ comp.2).map Effect.mariaDdl)
    | .ok _ =>
        if !insertOk then
          let comp := execute_mariadb_deprovisioning menv db_name username
          (.error .InternalServerError,
            prov.2.map Effect.mariaDdl ++ [.insertDatabase] ++ comp.2.map Effect.mariaDdl)
        else
          (.ok (), prov.2.map Effect.mariaDdl ++ [.insertDatabase])

/-! ## deploy_project_handler (project_handler.rs:75-238) -/

/-- The `DeployPayload` (project_handler.rs:24-34); the env-var map is an
association list. -/
structure DeployPayload where
  project_name : String
  image_url : Option String
  github_repo_url : Option String
  participants : List String
  env_vars : Option (List (String × String))
  persistent_volume_path : Option String
  create_database : Option Bool
  deriving Repr

/-- Outcome of `create_project_container` (docker_service.rs:79-165): creation
failed, creation succeeded but start failed (which spawns a best-effort
container removal), or both succeeded. -/
inductive CreateContainerOutcome where
  | createFailed
  | startFailed
  | success
  deriving DecidableEq, Repr

/-- Outcomes of the external calls made by `deploy_project_handler`. -/
structure DeployEnv where
  ownerExists : Bool
  nameExists : Bool
  dbExists : Bool
  direct : DirectEnv
  github : GithubEnv
  createContainer : CreateContainerOutcome
  startFailRemoveResp : DockerResult
  createFailRemoveImageResp : DockerResult
  beginTxOk : Bool
  createProjectResult : Option AppError
  provisionMaria : MariaEnv
  provisionPassword : String
  provisionInsertOk : Bool
  addParticipantsOk : Bool
  commitOk : Bool
  bgStopContainerResp : DockerResult
  bgRemoveContainerResp : DockerResult
  bgRemoveImageResp : DockerResult
  deriving Repr

/-- Presence of runtime resources reachable by the names the deploy derives,
and of the committed project row, after the handler and any cleanup it
spawned have run. -/
structure World where
  projectRowCommitted : Bool
  containerPresent : Bool
  containerRunning : Bool
  imagePresent : Bool
  deriving DecidableEq, Repr

def World.clean : World := ⟨false, false, false, false⟩

structure DeployResult where
  result : Except AppError Unit
  trace : List Effect
  world : World
  deriving Repr

/-- Whether a raw `docker.remove_container` call left the container in place
(404 means it was already gone). -/
def containerLeft (r : DockerResult) : Bool :=
  !(r == .ok || r == .serverError 404)

/-- The world after the spawned cleanup of the metadata-failure branches:
`docker_service::remove_container` then `docker_service::remove_image` on the
derived names, fire and forget. -/
def worldAfterBgCleanup (env : DeployEnv) : World :=
  { projectRowCommitted := false
    containerPresent :=
      !(remove_container env.bgStopContainerResp env.bgRemoveContainerResp matches .ok _)
    containerRunning := false
    imagePresent := !(remove_image env.bgRemoveImageResp matches .ok _) }

/-- The reads performed before a conflict rejection. -/
def deployReadTrace (payload : DeployPayload) : List Effect :=
  [.readOwnerExists, .readNameExists] ++
    (if payload.create_database.getD false then [.readDbExists] else [])

/-- The metadata-transaction phase of `deploy_project_handler`
(project_handler.rs:154-237), entered once the container exists: open the
transaction, insert the project row, optionally provision-and-link the tenant
database, insert the participants, commit.  The project-insert and
tenant-provisioning failures roll back and spawn container/image cleanup; the
participant-insert and commit failures roll back (or abort) without any
runtime cleanup, exactly as in the source. -/
def deployTxPhase (env : DeployEnv) (user_login : String) (payload : DeployPayload)
    (pre : List Effect) (container_name deployed_image_tag : String) : DeployResult :=
  let liveWorld : World := ⟨false, true, true, true⟩
  if !env.beginTxOk then
    ⟨.error .InternalServerError, pre ++ [.beginTx], liveWorld⟩
  else
    let pre1 := pre ++ [.beginTx, .insertProject]
    match env.createProjectResult with
    | some db_error =>
        ⟨.error db_error,
          pre1 ++ [.rollbackTx, .removeContainer container_name,
            .removeImage deployed_image_tag],
          worldAfterBgCleanup env⟩
    | none =>
        let dbStep : Except AppError Unit × List Effect :=
          if payload.create_database.getD false then
            provision_and_link_database_tx env.provisionMaria env.provisionInsertOk user_login
          else (.ok (), [])
        let pre2 := pre1 ++ dbStep.2
        match dbStep.1 with
        | .error db_error =>
            ⟨.error db_error,
              pre2 ++ [.rollbackTx, .removeContainer container_name,
                .removeImage deployed_image_tag],
              worldAfterBgCleanup env⟩
        | .ok _ =>
            let final_participants := payload.participants.dedup
            let partStep : Except AppError Unit × List Effect :=
              if final_participants.isEmpty then (.ok (), [])
              else if !env.addParticipantsOk then
                (.error .InternalServerError, [.insertParticipants])
              else (.ok (), [.insertParticipants])
            let pre3 := pre2 ++ partStep.2
            match partStep.1 with
            | .error e =>
                ⟨.error e, pre3 ++ [.rollbackTx], liveWorld⟩
            | .ok _ =>
                if !env.commitOk then
                  ⟨.error .InternalServerError, pre3 ++ [.commitTx], liveWorld⟩
                else
                  ⟨.ok (), pre3 ++ [.commitTx], ⟨true, true, true, true⟩⟩

/-- The `deploy_project_handler` (project_handler.rs:75-238): validations and
conflict checks, source preparation, container creation with its image
rollback, then the metadata transaction phase. -/
def deploy_project_handler (env : DeployEnv) (app_pre user_login : String)
    (payload : DeployPayload) : DeployResult :=
  match validate_project_name payload.project_name with
  | .error e => ⟨.error e, [], World.clean⟩
  | .ok _ =>
  match payload.env_vars with
  | some vars =>
      match validate_env_vars vars with
      | .error e => ⟨.error e, [], World.clean⟩
      | .ok _ => deployAfterEnvVars env app_pre user_login payload
  | none => deployAfterEnvVars env app_pre user_login payload
where
  deployAfterEnvVars (env : DeployEnv) (app_pre user_login : String)
      (payload : DeployPayload) : DeployResult :=
    match payload.persistent_volume_path with
    | some path =>
        match validate_volume_path path with
        | .error e => ⟨.error e, [], World.clean⟩
        | .ok _ => deployAfterValidation env app_pre user_login payload
    | none => deployAfterValidation env app_pre user_login payload
  deployAfterValidation (env : DeployEnv) (app_pre user_login : String)
      (payload : DeployPayload) : DeployResult :=
    if env.ownerExists then
      ⟨.error (.ProjectError .OwnerAlreadyExists), [.readOwnerExists], World.clean⟩
    else if env.nameExists then
      ⟨.error (.ProjectError .ProjectNameTaken), [.readOwnerExists, .readNameExists],
        World.clean⟩
    else if payload.create_database.getD false && env.dbExists then
      ⟨.error (.DatabaseError .DatabaseAlreadyExists),
        [.readOwnerExists, .readNameExists, .readDbExists], World.clean⟩
    else if payload.participants.contains user_login then
      ⟨.error (.ProjectError .OwnerCannotBeParticipant), deployReadTrace payload,
        World.clean⟩
    else
      let reads := deployReadTrace payload
      let srcStep : Except AppError String × List Effect × Bool :=
        match payload.image_url with
        | some image_url =>
            let p := prepare_direct_source env.direct image_url
            (p.result, p.trace, p.imagePresent)
        | none =>
            match payload.github_repo_url with
            | some repo_url =>
                let p := prepare_github_source env.github payload.project_name repo_url
                (p.result, p.trace, p.imagePresent)
            | none =>
                (.error (.BadRequest
                  "You must provide either an \x27image_url\x27 or a \x27github_repo_url\x27."), [], false)
      match srcStep.1 with
      | .error e =>
          ⟨.error e, reads ++ srcStep.2.1,
            { World.clean with imagePresent := srcStep.2.2 }⟩
      | .ok deployed_image_tag =>
          let pre := reads ++ srcStep.2.1
          let container_name := app_pre ++ "-" ++ payload.project_name
          match env.createContainer with
          | .createFailed =>
              ⟨.error (.ProjectError .ContainerCreationFailed),
                pre ++ [.createContainer container_name, .removeImage deployed_image_tag],
                { World.clean with
                    imagePresent :=
                      !(remove_image env.createFailRemoveImageResp matches .ok _) }⟩
          | .startFailed =>
              ⟨.error (.ProjectError .ContainerCreationFailed),
                pre ++ [.createContainer container_name,
                  .removeContainer container_name, .removeImage deployed_image_tag],
                { World.clean with
                    containerPresent := containerLeft env.startFailRemoveResp
                    imagePresent :=
                      !(remove_image env.createFailRemoveImageResp matches .ok _) }⟩
          | .success =>
              deployTxPhase env user_login payload
                (pre ++ [.createContainer container_name])
                container_name deployed_image_tag

/-- The full ordered effect sequence of a purge of project `p` with linked
tenant database `d` and recorded volume `vn`: drop the secondary-engine
database, drop its user, delete the database metadata row, remove the
container, remove the volume, remove the image, and last delete the project
metadata row. -/
def purgeCanonical (p : Project) (d : DatabaseRec) (vn : String) : List Effect :=
  [.mariaDdl (dropDatabaseSql d.database_name), .mariaDdl (dropUserSql d.username),
    .deleteDbRow, .removeContainer p.container_name, .removeVolume vn,
    .removeImage p.deployed_image_tag, .deleteProjectRow]

/-- All three syntactic request validations of `deploy_project_handler`
succeed. -/
def validationsPass (payload : DeployPayload) : Prop :=
  validate_project_name payload.project_name = .ok () ∧
  (∀ vars, payload.env_vars = some vars → validate_env_vars vars = .ok ()) ∧
  (∀ p, payload.persistent_volume_path = some p → validate_volume_path p = .ok ())

deriving instance DecidableEq for Except

/-! ## Theorems -/

theorem nameCharOk_utf8Size {c : Char} (h : nameCharOk c = true) : c.utf8Size = 1 := by
  have h122 : c.val.toNat ≤ 122 := by
    unfold nameCharOk at h
    simp only [Bool.or_eq_true, beq_iff_eq] at h
    rcases h with h1 | rfl
    · unfold Char.isAlphanum Char.isAlpha Char.isUpper Char.isLower Char.isDigit at h1
      simp only [Bool.or_eq_true, Bool.and_eq_true, decide_eq_true_eq] at h1
      rcases h1 with (⟨_, hb⟩ | ⟨_, hb⟩) | ⟨_, hb⟩ <;>
      · have h2 := BitVec.le_def.mp (UInt32.le_def.mp hb)
        simp only [UInt32.toNat] at h2 ⊢
        exact le_trans h2 (by decide)
    · decide
  unfold Char.utf8Size
  rw [if_pos]
  rw [UInt32.le_def, BitVec.le_def]
  simp only [UInt32.toNat] at h122
  exact le_trans h122 (by decide)

theorem utf8Len_eq_length {l : List Char} (h : ∀ c ∈ l, nameCharOk c = true) :
    utf8Len l = l.length := by
  induction l with
  | nil => rfl
  | cons c cs ih =>
      have hc := nameCharOk_utf8Size (h c (List.mem_cons_self c cs))
      have ihs := ih (fun x hx => h x (List.mem_cons_of_mem _ hx))
      simp [utf8Len, hc] at ihs ⊢
      omega

/-- C10: `validate_project_name` accepts a name iff it is non-empty, at most
63 characters, all ASCII alphanumerics or `-`, and neither starts nor ends
with `-`; every rejected name yields `InvalidProjectName`; and every deploy
whose project name fails this check is rejected as its very first step, with
no external effect. -/
theorem C10_project_name_validation :
    (∀ name : String,
      (validate_project_name name = .ok () ↔ specProjectNameOk name) ∧
      (validate_project_name name ≠ .ok () →
        validate_project_name name = .error (.ProjectError .InvalidProjectName))) ∧
    (∀ (env : DeployEnv) (app_pre user_login : String) (payload : DeployPayload)
      (e : AppError),
      validate_project_name payload.project_name = .error e →
      deploy_project_handler env app_pre user_login payload =
        ⟨.error e, [], World.clean⟩) := by
  constructor
  · intro name
    constructor
    · constructor
      · intro hok
        unfold validate_project_name at hok
        split_ifs at hok with h1 h2 h3 h4 <;> try exact Except.noConfusion hok
        have hall : ∀ c ∈ name.data, nameCharOk c = true := by
          simpa [List.all_eq_true] using not_not.mp (by simpa using h3)
        have hlen := utf8Len_eq_length hall
        refine ⟨by simpa [String.isEmpty_iff] using h1, by omega, ?_, ?_, ?_⟩
        · intro c hc
          have := hall c hc
          unfold nameCharOk at this
          simpa using this
        · intro hcon
          exact h4 (by simp [hcon])
        · intro hcon
          exact h4 (by simp [hcon])
      · intro hspec
        obtain ⟨hne, hlen, hchars, hh, hl⟩ := hspec
        have hall : name.data.all nameCharOk = true := by
          simp only [List.all_eq_true]
          intro c hc
          unfold nameCharOk
          rcases hchars c hc with h | h <;> simp [h]
        have hulen : utf8Len name.data ≤ 63 := by
          rw [utf8Len_eq_length (by simpa [List.all_eq_true] using hall)]
          exact hlen
        unfold validate_project_name
        rw [if_neg (by simpa [String.isEmpty_iff] using hne),
          if_neg (by omega), if_neg (by simp [hall]), if_neg (by simp [hh, hl])]
    · intro hne
      unfold validate_project_name at hne ⊢
      split_ifs at hne ⊢ <;> first | rfl | exact absurd rfl hne
  · intro env app_pre user_login payload e h
    unfold deploy_project_handler
    rw [h]

/-- Witness for C10 at concrete inputs: the name `my-app` is accepted, the
name `-bad` is rejected with `InvalidProjectName`, and a deploy carrying an
empty project name is rejected before any effect. -/
theorem C10_project_name_validation_witness :
    validate_project_name "my-app" = .ok () ∧
    validate_project_name "-bad" = .error (.ProjectError .InvalidProjectName) ∧
    deploy_project_handler
      ⟨false, false, false, ⟨none, ⟨true, true, ""⟩, .ok⟩,
        ⟨true, .ok, .ok 1, .ok "", .ok (), .ok, true, true, none, ⟨true, true, ""⟩, .ok⟩,
        .success, .ok, .ok, true, none, ⟨true, true, true, true, true, true⟩, "pw",
        true, true, true, .ok, .ok, .ok⟩
      "hangar" "alice"
      ⟨"", some "nginx:latest", none, [], none, none, none⟩ =
      ⟨.error (.ProjectError .InvalidProjectName), [], World.clean⟩ := by
  refine ⟨?_, ?_, ?_⟩
  · exact (C10_project_name_validation.1 "my-app").1.mpr (by decide)
  · exact (C10_project_name_validation.1 "-bad").2 (by decide)
  · exact C10_project_name_validation.2 _ _ _ _ _ (by decide)

set_option maxHeartbeats 2000000 in
/-- C9: the CPU-percent computation returns exactly 0 whenever any required
counter (cpu stats, precpu stats, their usage blocks, total usage, system
usage) is absent or the system/usage delta is non-positive, and returns
exactly 40 for a 200ms usage delta over a 1000ms system delta with 2 online
CPUs. -/
theorem C9_cpu_percent :
    (∀ stats : ContainerStatsResponse, stats.cpu_stats = none →
      calculate_cpu_percent stats = 0) ∧
    (∀ stats : ContainerStatsResponse, stats.precpu_stats = none →
      calculate_cpu_percent stats = 0) ∧
    (∀ (cs pcs : CpuStats), cs.cpu_usage = none →
      calculate_cpu_percent ⟨some cs, some pcs⟩ = 0) ∧
    (∀ (cs pcs : CpuStats), pcs.cpu_usage = none →
      calculate_cpu_percent ⟨some cs, some pcs⟩ = 0) ∧
    (∀ (sys presys : Option Nat) (cpus : Option Nat) (pu : CpuUsage),
      calculate_cpu_percent
        ⟨some ⟨some ⟨none⟩, sys, cpus⟩, some ⟨some pu, presys, none⟩⟩ = 0) ∧
    (∀ (sys presys : Option Nat) (cpus : Option Nat) (t : Nat),
      calculate_cpu_percent
        ⟨some ⟨some ⟨some t⟩, sys, cpus⟩, some ⟨some ⟨none⟩, presys, none⟩⟩ = 0) ∧
    (∀ (presys : Option Nat) (cpus : Option Nat) (t pt : Nat),
      calculate_cpu_percent
        ⟨some ⟨some ⟨some t⟩, none, cpus⟩, some ⟨some ⟨some pt⟩, presys, none⟩⟩ = 0) ∧
    (∀ (sys : Nat) (cpus : Option Nat) (t pt : Nat),
      calculate_cpu_percent
        ⟨some ⟨some ⟨some t⟩, some sys, cpus⟩, some ⟨some ⟨some pt⟩, none, none⟩⟩ = 0) ∧
    (∀ (t pt sys presys : Nat) (cpus : Option Nat), sys ≤ presys ∨ t ≤ pt →
      calculate_cpu_percent
        ⟨some ⟨some ⟨some t⟩, some sys, cpus⟩,
          some ⟨some ⟨some pt⟩, some presys, none⟩⟩ = 0) ∧
    calculate_cpu_percent
      ⟨some ⟨some ⟨some 200000000⟩, some 1000000000, some 2⟩,
        some ⟨some ⟨some 0⟩, some 0, none⟩⟩ = 40 := by
  refine ⟨?_, ?_, ?_, ?_, ?_, ?_, ?_, ?_, ?_, ?_⟩
  · intro stats h
    simp [calculate_cpu_percent, h]
  · intro stats h
    cases hcs : stats.cpu_stats <;> simp [calculate_cpu_percent, h, hcs]
  · intro cs pcs h
    simp [calculate_cpu_percent, h]
  · intro cs pcs h
    cases hcu : cs.cpu_usage <;> simp [calculate_cpu_percent, h, hcu]
  · intro sys presys cpus pu
    simp [calculate_cpu_percent]
  · intro sys presys cpus t
    simp [calculate_cpu_percent]
  · intro presys cpus t pt
    simp [calculate_cpu_percent]
  · intro sys cpus t pt
    simp [calculate_cpu_percent]
  · intro t pt sys presys cpus h
    have hguard : ¬(presys < sys ∧ pt < t) := by
      rcases h with h | h
      · exact fun hc => absurd hc.1 (not_lt.mpr h)
      · exact fun hc => absurd hc.2 (not_lt.mpr h)
    simp [calculate_cpu_percent, hguard]
  · norm_num [calculate_cpu_percent]

/-- Witness for C9's conditional conjuncts at concrete counters. -/
theorem C9_cpu_percent_witness :
    calculate_cpu_percent
      ⟨none, some ⟨some ⟨some 5⟩, some 7, none⟩⟩ = 0 ∧
    calculate_cpu_percent
      ⟨some ⟨some ⟨some 5⟩, some 9, some 1⟩, some ⟨some ⟨some 3⟩, some 9, none⟩⟩ = 0 := by
  constructor
  · exact C9_cpu_percent.1 ⟨none, some ⟨some ⟨some 5⟩, some 7, none⟩⟩ rfl
  · exact C9_cpu_percent.2.2.2.2.2.2.2.2.1 5 3 9 9 none (Or.inl le_rfl)

/-- C3 counterexample: removing an already-absent image — the runtime answers
404 — returns `InternalServerError`, not success, refuting the claim that
remove-image treats not-found as already-satisfied. -/
theorem C3_remove_image_absent_counterexample :
    remove_image (.serverError 404) = .error .InternalServerError := rfl

/-- C3 amended: `remove_container` succeeds exactly when the runtime removal
succeeds or answers 404 (with stop-step failures, including 404 and 304 for
absent or already-stopped containers, never propagated), so teardown of an
absent or stopped container is success; `remove_image`, however, succeeds only
when the runtime removal call itself succeeds — an already-absent image is an
error. -/
theorem C3_removal_idempotence :
    (∀ stopResp removeResp : DockerResult,
      remove_container stopResp removeResp = .ok () ↔
        (removeResp = .ok ∨ removeResp = .serverError 404)) ∧
    (∀ resp : DockerResult, remove_image resp = .ok () ↔ resp = .ok) := by
  constructor
  · intro s r
    cases r with
    | ok => simp [remove_container]
    | serverError c => by_cases hc : c = 404 <;> simp [remove_container, hc]
    | otherError => simp [remove_container]
  · intro r
    cases r <;> simp [remove_image]

/-- C7: tenant-database provisioning and deprovisioning derive database name
= username = `hangardb_<owner>` and check both against `[A-Za-z0-9_]`
(non-empty) before submitting any DDL that interpolates them to the secondary
engine; a failed check yields an error with an empty DDL trace, and a
non-empty DDL trace implies both identifiers passed. -/
theorem C7_identifier_guard :
    (∀ owner : String, derivedDbName owner = DB_PREFIX ++ "_" ++ owner) ∧
    (∀ (env : MariaEnv) (n u : String),
      ¬(valid_identifier n = true ∧ valid_identifier u = true) →
      execute_mariadb_provisioning env n u = (.error (.BadRequest "Invalid identifier"), [])) ∧
    (∀ (env : MariaEnv) (n u : String),
      ¬(valid_identifier n = true ∧ valid_identifier u = true) →
      execute_mariadb_deprovisioning env n u = (.error (.BadRequest "Invalid identifier"), [])) ∧
    (∀ (env : MariaEnv) (n u : String),
      (execute_mariadb_provisioning env n u).2 ≠ [] →
      valid_identifier n = true ∧ valid_identifier u = true) ∧
    (∀ (env : MariaEnv) (n u : String),
      (execute_mariadb_deprovisioning env n u).2 ≠ [] →
      valid_identifier n = true ∧ valid_identifier u = true) ∧
    (∀ (menv : MariaEnv) (insertOk : Bool) (owner : String),
      valid_identifier (derivedDbName owner) = false →
      provision_and_link_database_tx menv insertOk owner =
        (.error (.BadRequest "Invalid identifier"), [])) ∧
    (∀ (dbExists : Bool) (menv : MariaEnv) (insertOk : Bool) (owner : String),
      valid_identifier (derivedDbName owner) = false →
      (provision_database dbExists menv insertOk owner).2 = []) ∧
    (∀ (denv : DeprovEnv) (rec : DatabaseRec), denv.dbLookup = some rec →
      ¬(valid_identifier rec.database_name = true ∧ valid_identifier rec.username = true) →
      deprovision_database denv = (.error (.BadRequest "Invalid identifier"), [])) := by
  have hprov : ∀ (env : MariaEnv) (n u : String),
      ¬(valid_identifier n = true ∧ valid_identifier u = true) →
      execute_mariadb_provisioning env n u = (.error (.BadRequest "Invalid identifier"), []) := by
    intro env n u h
    have hcond : (!valid_identifier n || !valid_identifier u) = true := by
      cases hn : valid_identifier n <;> cases hu : valid_identifier u <;> simp_all
    unfold execute_mariadb_provisioning
    rw [if_pos hcond]
  have hdeprov : ∀ (env : MariaEnv) (n u : String),
      ¬(valid_identifier n = true ∧ valid_identifier u = true) →
      execute_mariadb_deprovisioning env n u = (.error (.BadRequest "Invalid identifier"), []) := by
    intro env n u h
    have hcond : (!valid_identifier n || !valid_identifier u) = true := by
      cases hn : valid_identifier n <;> cases hu : valid_identifier u <;> simp_all
    unfold execute_mariadb_deprovisioning
    rw [if_pos hcond]
  refine ⟨fun _ => rfl, hprov, hdeprov, ?_, ?_, ?_, ?_, ?_⟩
  · intro env n u h
    by_contra hcon
    exact h (by rw [hprov env n u hcon] at h; simp at h)
  · intro env n u h
    by_contra hcon
    exact h (by rw [hdeprov env n u hcon] at h; simp at h)
  · intro menv insertOk owner h
    have h1 := hprov menv (derivedDbName owner) (derivedDbName owner) (by simp [h])
    have h2 := hdeprov menv (derivedDbName owner) (derivedDbName owner) (by simp [h])
    simp [provision_and_link_database_tx, h1, h2]
  · intro dbExists menv insertOk owner h
    have h1 := hprov menv (derivedDbName owner) (derivedDbName owner) (by simp [h])
    have h2 := hdeprov menv (derivedDbName owner) (derivedDbName owner) (by simp [h])
    cases dbExists with
    | true => rfl
    | false => simp [provision_database, h1, h2]
  · intro denv rec hlook h
    have h2 := hdeprov denv.maria rec.database_name rec.username h
    simp [deprovision_database, hlook, h2]

/-- Witness for C7 at concrete inputs: a backquote in the owner identity
fails the identifier check, so provisioning and deprovisioning submit no DDL,
while the derived name for a clean owner is the documented prefix join. -/
theorem C7_identifier_guard_witness :
    derivedDbName "alice" = "hangardb_alice" ∧
    execute_mariadb_provisioning ⟨true, true, true, true, true, true⟩ "hangardb_x\x60y" "hangardb_x\x60y" =
      (.error (.BadRequest "Invalid identifier"), []) ∧
    execute_mariadb_deprovisioning ⟨true, true, true, true, true, true⟩ "" "" =
      (.error (.BadRequest "Invalid identifier"), []) ∧
    provision_and_link_database_tx ⟨true, true, true, true, true, true⟩ true "bad owner" =
      (.error (.BadRequest "Invalid identifier"), []) ∧
    (provision_database false ⟨true, true, true, true, true, true⟩ true "bad owner").2 = [] ∧
    deprovision_database ⟨some ⟨1, "o", "bad name", "u", none⟩, ⟨true, true, true, true, true, true⟩, true⟩ =
      (.error (.BadRequest "Invalid identifier"), []) := by
  refine ⟨C7_identifier_guard.1 "alice", ?_, ?_, ?_, ?_, ?_⟩
  · exact C7_identifier_guard.2.1 _ _ _ (by decide)
  · exact C7_identifier_guard.2.2.1 _ _ _ (by decide)
  · exact C7_identifier_guard.2.2.2.2.2.1 _ _ _ (by decide)
  · exact C7_identifier_guard.2.2.2.2.2.2.1 false _ true _ (by decide)
  · exact C7_identifier_guard.2.2.2.2.2.2.2 _ _ rfl (by decide)

/-- C4: for every plaintext and key, decrypt inverts encrypt; the encrypt
output is the 12-byte nonce prepended to the ciphertext (its first 12 bytes
are the nonce, the rest the AEAD ciphertext); and decrypt rejects every input
shorter than the nonce with an error.  `C` is the AES-256-GCM primitive and
`U` the UTF-8 codec of the standard library, both external collaborators
carrying their round-trip contracts. -/
theorem C4_crypto_roundtrip (C : AeadCipher) (U : Utf8Codec) :
    (∀ (key nonce : List Nat) (plaintext : String), nonce.length = NONCE_SIZE →
      decrypt C U (encrypt C U nonce plaintext key) key = .ok plaintext) ∧
    (∀ (key nonce : List Nat) (plaintext : String), nonce.length = NONCE_SIZE →
      (encrypt C U nonce plaintext key).take NONCE_SIZE = nonce ∧
      (encrypt C U nonce plaintext key).drop NONCE_SIZE =
        C.enc key nonce (U.toBytes plaintext) ∧
      (encrypt C U nonce plaintext key).length =
        NONCE_SIZE + (C.enc key nonce (U.toBytes plaintext)).length) ∧
    (∀ (data key : List Nat), data.length < NONCE_SIZE →
      decrypt C U data key = .error .InternalServerError) := by
  have htake : ∀ (key nonce : List Nat) (plaintext : String),
      nonce.length = NONCE_SIZE →
      (encrypt C U nonce plaintext key).take NONCE_SIZE = nonce := by
    intro key nonce pt h
    unfold encrypt
    rw [← h]
    exact List.take_left _ _
  have hdrop : ∀ (key nonce : List Nat) (plaintext : String),
      nonce.length = NONCE_SIZE →
      (encrypt C U nonce plaintext key).drop NONCE_SIZE =
        C.enc key nonce (U.toBytes plaintext) := by
    intro key nonce pt h
    unfold encrypt
    rw [← h]
    exact List.drop_left _ _
  refine ⟨?_, ?_, ?_⟩
  · intro key nonce pt h
    have hlen : ¬((encrypt C U nonce pt key).length < NONCE_SIZE) := by
      unfold encrypt
      rw [List.length_append, h]
      omega
    unfold decrypt
    rw [if_neg hlen, htake key nonce pt h, hdrop key nonce pt h, C.dec_enc]
    simp [U.ofBytes_toBytes]
  · intro key nonce pt h
    refine ⟨htake key nonce pt h, hdrop key nonce pt h, ?_⟩
    unfold encrypt
    rw [List.length_append, h]
  · intro data key h
    unfold decrypt
    rw [if_pos h]

/-- Witness for C4 at a concrete cipher, codec, nonce, plaintext and key. -/
theorem C4_crypto_roundtrip_witness :
    decrypt idCipher charCodec
      (encrypt idCipher charCodec [0, 1, 2, 3, 4, 5, 6, 7, 8, 9, 10, 11] "secret" [7])
      [7] = .ok "secret" ∧
    (encrypt idCipher charCodec [0, 1, 2, 3, 4, 5, 6, 7, 8, 9, 10, 11] "secret" [7]).take
      NONCE_SIZE = [0, 1, 2, 3, 4, 5, 6, 7, 8, 9, 10, 11] ∧
    decrypt idCipher charCodec [1, 2, 3] [7] = .error .InternalServerError := by
  refine ⟨?_, ?_, ?_⟩
  · exact (C4_crypto_roundtrip idCipher charCodec).1 [7] _ "secret" (by decide)
  · exact ((C4_crypto_roundtrip idCipher charCodec).2.1 [7] _ "secret" (by decide)).1
  · exact (C4_crypto_roundtrip idCipher charCodec).2.2 [1, 2, 3] [7] (by decide)

theorem prepare_direct_pullfail (denv : DirectEnv) (url : String) (e : BollardError)
    (h : denv.pullResult = some e) :
    (∃ err, (prepare_direct_source denv url).result = .error err) ∧
    (prepare_direct_source denv url).trace.all (fun ef => !ef.isCreateContainer) = true ∧
    (prepare_direct_source denv url).imagePresent = false := by
  unfold prepare_direct_source
  cases hv : validate_image_url url with
  | error e' =>
      dsimp only
      exact ⟨⟨e', rfl⟩, by simp [Effect.isCreateContainer], rfl⟩
  | ok _ =>
      dsimp only
      rw [h]
      by_cases hc : (strStartsWith "ghcr.io/" url &&
          (e == BollardError.dockerResponseServerError 401 ||
           e == BollardError.dockerResponseServerError 403)) = true
      · simp [hc, Effect.isCreateContainer]
      · simp only [Bool.not_eq_true] at hc
        simp [hc, Effect.isCreateContainer]

theorem deployAfterValidation_direct_pullfail (env : DeployEnv)
    (app_pre user_login : String) (payload : DeployPayload) (url : String)
    (e : BollardError) (hurl : payload.image_url = some url)
    (hpull : env.direct.pullResult = some e) :
    (deploy_project_handler.deployAfterValidation env app_pre user_login
        payload).world.containerPresent = false ∧
    (deploy_project_handler.deployAfterValidation env app_pre user_login
        payload).trace.all (fun ef => !ef.isCreateContainer) = true := by
  obtain ⟨⟨err, herr⟩, htr, _⟩ := prepare_direct_pullfail env.direct url e hpull
  unfold deploy_project_handler.deployAfterValidation
  split_ifs with h1 h2 h3 h4
  · exact ⟨rfl, by simp [Effect.isCreateContainer]⟩
  · exact ⟨rfl, by simp [Effect.isCreateContainer]⟩
  · exact ⟨rfl, by simp [Effect.isCreateContainer]⟩
  · exact ⟨rfl, by simp [deployReadTrace, Effect.isCreateContainer]⟩
  · rw [hurl]
    dsimp only
    simp only [herr]
    refine ⟨rfl, ?_⟩
    rw [List.all_append, htr, Bool.and_true]
    simp [deployReadTrace, Effect.isCreateContainer]

theorem deployAfterEnvVars_direct_pullfail (env : DeployEnv)
    (app_pre user_login : String) (payload : DeployPayload) (url : String)
    (e : BollardError) (hurl : payload.image_url = some url)
    (hpull : env.direct.pullResult = some e) :
    (deploy_project_handler.deployAfterEnvVars env app_pre user_login
        payload).world.containerPresent = false ∧
    (deploy_project_handler.deployAfterEnvVars env app_pre user_login
        payload).trace.all (fun ef => !ef.isCreateContainer) = true := by
  unfold deploy_project_handler.deployAfterEnvVars
  cases hp : payload.persistent_volume_path with
  | none =>
      exact deployAfterValidation_direct_pullfail env app_pre user_login
        payload url e hurl hpull
  | some path =>
      dsimp only
      cases hv : validate_volume_path path with
      | error e2 => exact ⟨rfl, rfl⟩
      | ok _ =>
          exact deployAfterValidation_direct_pullfail env app_pre user_login
            payload url e hurl hpull

/-- C5: a direct-source pull failure against a `ghcr.io/` reference that is an
HTTP 401 or 403 yields `GithubPackageNotPublic`; every other pull failure
yields `ImagePullFailed`; and in both cases the deploy creates no container
(no container-creation call appears in the trace and no container exists
afterwards). -/
theorem C5_pull_failure_mapping :
    (∀ (env : DirectEnv) (image_url : String) (e : BollardError),
      validate_image_url image_url = .ok () →
      env.pullResult = some e →
      ((strStartsWith "ghcr.io/" image_url = true ∧
          (e = .dockerResponseServerError 401 ∨ e = .dockerResponseServerError 403)) →
        (prepare_direct_source env image_url).result =
          .error (.ProjectError .GithubPackageNotPublic)) ∧
      (¬(strStartsWith "ghcr.io/" image_url = true ∧
          (e = .dockerResponseServerError 401 ∨ e = .dockerResponseServerError 403)) →
        (prepare_direct_source env image_url).result =
          .error (.ProjectError .ImagePullFailed))) ∧
    (∀ (env : DeployEnv) (app_pre user_login : String) (payload : DeployPayload)
      (url : String) (e : BollardError),
      payload.image_url = some url →
      env.direct.pullResult = some e →
      (deploy_project_handler env app_pre user_login payload).world.containerPresent
        = false ∧
      (deploy_project_handler env app_pre user_login payload).trace.all
        (fun ef => !ef.isCreateContainer) = true) := by
  constructor
  · intro env url e hval hpull
    constructor
    · rintro ⟨hg, he⟩
      have hcond : (strStartsWith "ghcr.io/" url &&
          (e == BollardError.dockerResponseServerError 401 ||
           e == BollardError.dockerResponseServerError 403)) = true := by
        rcases he with rfl | rfl <;> simp [hg]
      simp [prepare_direct_source, hval, hpull, hcond]
    · intro hne
      have hcond : (strStartsWith "ghcr.io/" url &&
          (e == BollardError.dockerResponseServerError 401 ||
           e == BollardError.dockerResponseServerError 403)) = false := by
        by_contra hb
        rw [Bool.not_eq_false] at hb
        simp only [Bool.and_eq_true, Bool.or_eq_true, beq_iff_eq] at hb
        exact hne ⟨hb.1, hb.2⟩
      simp [prepare_direct_source, hval, hpull, hcond]
  · intro env app_pre user_login payload url e hurl hpull
    unfold deploy_project_handler
    cases hname : validate_project_name payload.project_name with
    | error e1 => exact ⟨rfl, rfl⟩
    | ok _ =>
        dsimp only
        have hafter :=
          deployAfterEnvVars_direct_pullfail env app_pre user_login payload url e hurl hpull
        cases hev : payload.env_vars with
        | none => exact hafter
        | some vars =>
            dsimp only
            cases hvv : validate_env_vars vars with
            | error e2 => exact ⟨rfl, rfl⟩
            | ok _ => exact hafter

/-- Witness for C5 at concrete inputs: a 403 pull failure on a `ghcr.io/`
reference maps to `GithubPackageNotPublic`, a generic pull failure on another
registry maps to `ImagePullFailed`, and a deploy whose pull fails creates no
container. -/
theorem C5_pull_failure_mapping_witness :
    (prepare_direct_source
        ⟨some (.dockerResponseServerError 403), ⟨true, true, ""⟩, .ok⟩
        "ghcr.io/acme/app:latest").result =
      .error (.ProjectError .GithubPackageNotPublic) ∧
    (prepare_direct_source ⟨some .other, ⟨true, true, ""⟩, .ok⟩
        "docker.io/library/nginx:latest").result =
      .error (.ProjectError .ImagePullFailed) ∧
    (deploy_project_handler
        ⟨false, false, false, ⟨some .other, ⟨true, true, ""⟩, .ok⟩,
          ⟨true, .ok, .ok 1, .ok "", .ok (), .ok, true, true, none, ⟨true, true, ""⟩, .ok⟩,
          .success, .ok, .ok, true, none, ⟨true, true, true, true, true, true⟩, "pw",
          true, true, true, .ok, .ok, .ok⟩
        "hangar" "alice"
        ⟨"app", some "docker.io/library/nginx:latest", none, [], none, none, none⟩
      ).world.containerPresent = false := by
  refine ⟨?_, ?_, ?_⟩
  · exact (C5_pull_failure_mapping.1 _ "ghcr.io/acme/app:latest" _ (by decide) rfl).1
      ⟨by decide, Or.inr rfl⟩
  · exact (C5_pull_failure_mapping.1 _ "docker.io/library/nginx:latest" _ (by decide) rfl).2
      (by decide)
  · exact (C5_pull_failure_mapping.2 _ "hangar" "alice" _
      "docker.io/library/nginx:latest" .other rfl rfl).1

theorem githubBuildPhase_fb (env : GithubEnv) (pn : String) (pre : List Effect)
    (fb : Bool) : (githubBuildPhase env pn pre fb).fallbackAttempted = fb := by
  unfold githubBuildPhase
  split_ifs <;>
    first
    | rfl
    | (cases env.buildResult <;>
        first
        | rfl
        | (cases scan_image_with_grype env.scan <;> rfl))

theorem githubFallbackPhase_fb (env : GithubEnv) (pn url : String)
    (pre : List Effect) :
    (githubFallbackPhase env pn url pre).fallbackAttempted = true := by
  unfold githubFallbackPhase
  cases extract_repo_owner_and_name url with
  | error e => rfl
  | ok p =>
      cases env.installationLookup with
      | error e => rfl
      | ok i =>
          cases env.tokenExchange with
          | error e => rfl
          | ok t =>
              cases env.accessibility with
              | error e => rfl
              | ok u =>
                  cases clone_repo env.authClone with
                  | error e => rfl
                  | ok v => exact githubBuildPhase_fb env pn _ true

/-- C6 counterexample: a generic clone failure (here a network timeout, which
`clone_repo` classifies as the generic `BadRequest` clone error, not as
account-not-linked) does NOT propagate directly: `prepare_github_source`
enters the authenticated fallback for it, refuting the claim that the
fallback is attempted only for private/inaccessible-repository failures. -/
theorem C6_generic_failure_falls_back_counterexample :
    clone_repo (.gitError "connection timed out") =
      .error (.BadRequest "Failed to clone repository. Check if the URL is correct.") ∧
    (prepare_github_source
        ⟨true, .gitError "connection timed out", .error .InternalServerError,
          .error .InternalServerError, .error .InternalServerError, .ok,
          true, true, none, ⟨true, true, ""⟩, .ok⟩
        "app" "https://github.com/acme/app").fallbackAttempted = true := by
  constructor
  · decide
  · decide

/-- C6 amended: the authenticated fallback is attempted exactly when the
unauthenticated clone fails with the account-not-linked classification (an
authentication-indicating git message) or with the generic bad-request clone
failure; only other errors (such as a blocking-task join failure mapped to
`InternalServerError`) propagate directly without a fallback attempt.  The
account-not-linked classification holds exactly when the lowercased git
message mentions an authentication problem. -/
theorem C6_clone_fallback :
    (∀ (genv : GithubEnv) (pn url : String), genv.tempDirOk = true →
      (prepare_github_source genv pn url).fallbackAttempted =
        fallbackTrigger (clone_repo genv.unauthClone)) ∧
    (∀ (genv : GithubEnv) (pn url : String) (e : AppError), genv.tempDirOk = true →
      clone_repo genv.unauthClone = .error e →
      fallbackTrigger (.error e) = false →
      (prepare_github_source genv pn url).result = .error e) ∧
    (∀ msg : String,
      clone_repo (.gitError msg) = .error (.ProjectError .GithubAccountNotLinked) ↔
        (containsSub "authentication required" (strToLower msg) = true ∨
         containsSub "credentials callback returned an error" (strToLower msg) = true)) := by
  refine ⟨?_, ?_, ?_⟩
  · intro genv pn url ht
    unfold prepare_github_source
    simp only [ht, Bool.not_true, Bool.false_eq_true, if_false]
    cases hc : clone_repo genv.unauthClone with
    | ok _ => simp [githubBuildPhase_fb, fallbackTrigger]
    | error e =>
        cases e with
        | InternalServerError => rfl
        | NotFound m => rfl
        | Unauthorized m => rfl
        | BadRequest m => simp [githubFallbackPhase_fb, fallbackTrigger]
        | DatabaseError c => rfl
        | ProjectError c =>
            cases c <;> simp [githubFallbackPhase_fb, fallbackTrigger]
  · intro genv pn url e ht hc htr
    unfold prepare_github_source
    simp only [ht, Bool.not_true, Bool.false_eq_true, if_false]
    rw [hc]
    cases e with
    | InternalServerError => rfl
    | NotFound m => rfl
    | Unauthorized m => rfl
    | BadRequest m => exact absurd htr (by simp [fallbackTrigger])
    | DatabaseError c => rfl
    | ProjectError c =>
        cases c <;> first
          | rfl
          | exact absurd htr (by simp [fallbackTrigger])
  · intro msg
    unfold clone_repo
    by_cases hc : (containsSub "authentication required" (strToLower msg) ||
        containsSub "credentials callback returned an error" (strToLower msg)) = true
    · simp only [hc, if_true]
      constructor
      · intro _
        simpa [Bool.or_eq_true] using hc
      · intro _
        trivial
    · simp only [Bool.not_eq_true] at hc
      simp only [hc, Bool.false_eq_true, if_false]
      constructor
      · intro h
        exact absurd h (by simp)
      · intro h
        rw [Bool.or_eq_false_iff] at hc
        rcases h with h | h
        · rw [hc.1] at h
          cases h
        · rw [hc.2] at h
          cases h

/-- Witness for C6 at concrete inputs: an authentication-required failure
triggers the fallback, and a blocking-task join failure propagates directly
with no fallback. -/
theorem C6_clone_fallback_witness :
    (prepare_github_source
        ⟨true, .gitError "remote authentication required but no callback set",
          .error .InternalServerError, .error .InternalServerError,
          .error .InternalServerError, .ok, true, true, none, ⟨true, true, ""⟩, .ok⟩
        "app" "https://github.com/acme/app").fallbackAttempted = true ∧
    (prepare_github_source
        ⟨true, .joinError, .error .InternalServerError, .error .InternalServerError,
          .error .InternalServerError, .ok, true, true, none, ⟨true, true, ""⟩, .ok⟩
        "app" "https://github.com/acme/app").result = .error .InternalServerError := by
  constructor
  · have h := C6_clone_fallback.1
      ⟨true, .gitError "remote authentication required but no callback set",
        .error .InternalServerError, .error .InternalServerError,
        .error .InternalServerError, .ok, true, true, none, ⟨true, true, ""⟩, .ok⟩
      "app" "https://github.com/acme/app" rfl
    rw [h]
    decide
  · exact C6_clone_fallback.2.1 _ "app" "https://github.com/acme/app"
      .InternalServerError rfl (by decide) (by decide)

theorem validationsPass_of (payload : DeployPayload)
    (h1 : validate_project_name payload.project_name = .ok ())
    (h2 : payload.env_vars = none) (h3 : payload.persistent_volume_path = none) :
    validationsPass payload :=
  ⟨h1, fun _vars hv => absurd hv (by rw [h2]; exact fun h => nomatch h),
    fun _p hp => absurd hp (by rw [h3]; exact fun h => nomatch h)⟩

theorem deployAfterEnvVars_eq (env : DeployEnv) (a u : String)
    (payload : DeployPayload)
    (h3 : ∀ p, payload.persistent_volume_path = some p →
      validate_volume_path p = .ok ()) :
    deploy_project_handler.deployAfterEnvVars env a u payload =
      deploy_project_handler.deployAfterValidation env a u payload := by
  unfold deploy_project_handler.deployAfterEnvVars
  cases hp : payload.persistent_volume_path with
  | none => rfl
  | some p =>
      dsimp only
      rw [h3 p hp]

theorem deploy_eq_afterValidation (env : DeployEnv) (a u : String)
    (payload : DeployPayload) (h : validationsPass payload) :
    deploy_project_handler env a u payload =
      deploy_project_handler.deployAfterValidation env a u payload := by
  obtain ⟨h1, h2, h3⟩ := h
  unfold deploy_project_handler
  rw [h1]
  dsimp only
  cases hev : payload.env_vars with
  | none => exact deployAfterEnvVars_eq env a u payload h3
  | some vars =>
      dsimp only
      rw [h2 vars hev]
      exact deployAfterEnvVars_eq env a u payload h3

/-- C8: every deploy rejected with a validation or conflict error (invalid
project name, forbidden environment variable, invalid volume path, owner
already has a project, project name taken, owner already has a database when
one is requested, or owner listed among the participants) is rejected before
any side effect: the trace holds at most the read-only fast-reject queries,
no container-runtime operation and no metadata write or transaction. -/
theorem C8_validation_before_side_effects (env : DeployEnv) (a u : String)
    (payload : DeployPayload) :
    (∀ e, validate_project_name payload.project_name = .error e →
      deploy_project_handler env a u payload = ⟨.error e, [], World.clean⟩) ∧
    (∀ vars e, validate_project_name payload.project_name = .ok () →
      payload.env_vars = some vars → validate_env_vars vars = .error e →
      deploy_project_handler env a u payload = ⟨.error e, [], World.clean⟩) ∧
    (∀ p e, validate_project_name payload.project_name = .ok () →
      (∀ vars, payload.env_vars = some vars → validate_env_vars vars = .ok ()) →
      payload.persistent_volume_path = some p → validate_volume_path p = .error e →
      deploy_project_handler env a u payload = ⟨.error e, [], World.clean⟩) ∧
    (validationsPass payload → env.ownerExists = true →
      deploy_project_handler env a u payload =
        ⟨.error (.ProjectError .OwnerAlreadyExists), [.readOwnerExists], World.clean⟩) ∧
    (validationsPass payload → env.ownerExists = false → env.nameExists = true →
      deploy_project_handler env a u payload =
        ⟨.error (.ProjectError .ProjectNameTaken),
          [.readOwnerExists, .readNameExists], World.clean⟩) ∧
    (validationsPass payload → env.ownerExists = false → env.nameExists = false →
      payload.create_database.getD false = true → env.dbExists = true →
      deploy_project_handler env a u payload =
        ⟨.error (.DatabaseError .DatabaseAlreadyExists),
          [.readOwnerExists, .readNameExists, .readDbExists], World.clean⟩) ∧
    (validationsPass payload → env.ownerExists = false → env.nameExists = false →
      (payload.create_database.getD false && env.dbExists) = false →
      payload.participants.contains u = true →
      deploy_project_handler env a u payload =
        ⟨.error (.ProjectError .OwnerCannotBeParticipant), deployReadTrace payload,
          World.clean⟩) ∧
    (deployReadTrace payload).all Effect.isRead = true := by
  refine ⟨?_, ?_, ?_, ?_, ?_, ?_, ?_, ?_⟩
  · intro e h
    unfold deploy_project_handler
    rw [h]
  · intro vars e h1 hev hv
    unfold deploy_project_handler
    rw [h1]
    dsimp only
    rw [hev]
    dsimp only
    rw [hv]
  · intro p e h1 h2 hp hv
    have : deploy_project_handler env a u payload =
        deploy_project_handler.deployAfterEnvVars env a u payload := by
      unfold deploy_project_handler
      rw [h1]
      dsimp only
      cases hev : payload.env_vars with
      | none => rfl
      | some vars =>
          dsimp only
          rw [h2 vars hev]
    rw [this]
    unfold deploy_project_handler.deployAfterEnvVars
    rw [hp]
    dsimp only
    rw [hv]
  · intro h howner
    rw [deploy_eq_afterValidation env a u payload h]
    unfold deploy_project_handler.deployAfterValidation
    simp [howner]
  · intro h howner hname
    rw [deploy_eq_afterValidation env a u payload h]
    unfold deploy_project_handler.deployAfterValidation
    simp [howner, hname]
  · intro h howner hname hdb hdbe
    rw [deploy_eq_afterValidation env a u payload h]
    unfold deploy_project_handler.deployAfterValidation
    simp [howner, hname, hdb, hdbe]
  · intro h howner hname hdb hpart
    have hmem : u ∈ payload.participants := by simpa using hpart
    rw [deploy_eq_afterValidation env a u payload h]
    unfold deploy_project_handler.deployAfterValidation
    simp [howner, hname, hdb, hmem]
  · unfold deployReadTrace
    cases hdb : payload.create_database.getD false <;> simp [Effect.isRead]

/-- Witness for C8 at concrete rejected deploys, one per rejection class. -/
theorem C8_validation_before_side_effects_witness :
    (deploy_project_handler
        ⟨false, false, false, ⟨none, ⟨true, true, ""⟩, .ok⟩,
          ⟨true, .ok, .ok 1, .ok "", .ok (), .ok, true, true, none, ⟨true, true, ""⟩, .ok⟩,
          .success, .ok, .ok, true, none, ⟨true, true, true, true, true, true⟩, "pw",
          true, true, true, .ok, .ok, .ok⟩
        "hangar" "alice"
        ⟨"-bad", some "img", none, [], none, none, none⟩ =
      ⟨.error (.ProjectError .InvalidProjectName), [], World.clean⟩) ∧
    (deploy_project_handler
        ⟨false, false, false, ⟨none, ⟨true, true, ""⟩, .ok⟩,
          ⟨true, .ok, .ok 1, .ok "", .ok (), .ok, true, true, none, ⟨true, true, ""⟩, .ok⟩,
          .success, .ok, .ok, true, none, ⟨true, true, true, true, true, true⟩, "pw",
          true, true, true, .ok, .ok, .ok⟩
        "hangar" "alice"
        ⟨"app", some "img", none, [], some [("PATH", "v")], none, none⟩ =
      ⟨.error (.ProjectError (.ForbiddenEnvVar "PATH")), [], World.clean⟩) ∧
    (deploy_project_handler
        ⟨false, false, false, ⟨none, ⟨true, true, ""⟩, .ok⟩,
          ⟨true, .ok, .ok 1, .ok "", .ok (), .ok, true, true, none, ⟨true, true, ""⟩, .ok⟩,
          .success, .ok, .ok, true, none, ⟨true, true, true, true, true, true⟩, "pw",
          true, true, true, .ok, .ok, .ok⟩
        "hangar" "alice"
        ⟨"app", some "img", none, [], none, some "etc/x", none⟩ =
      ⟨.error (.ProjectError .InvalidVolumePath), [], World.clean⟩) ∧
    (deploy_project_handler
        ⟨true, false, false, ⟨none, ⟨true, true, ""⟩, .ok⟩,
          ⟨true, .ok, .ok 1, .ok "", .ok (), .ok, true, true, none, ⟨true, true, ""⟩, .ok⟩,
          .success, .ok, .ok, true, none, ⟨true, true, true, true, true, true⟩, "pw",
          true, true, true, .ok, .ok, .ok⟩
        "hangar" "alice"
        ⟨"app", some "img", none, [], none, none, none⟩ =
      ⟨.error (.ProjectError .OwnerAlreadyExists), [.readOwnerExists], World.clean⟩) ∧
    (deploy_project_handler
        ⟨false, true, false, ⟨none, ⟨true, true, ""⟩, .ok⟩,
          ⟨true, .ok, .ok 1, .ok "", .ok (), .ok, true, true, none, ⟨true, true, ""⟩, .ok⟩,
          .success, .ok, .ok, true, none, ⟨true, true, true, true, true, true⟩, "pw",
          true, true, true, .ok, .ok, .ok⟩
        "hangar" "alice"
        ⟨"app", some "img", none, [], none, none, none⟩ =
      ⟨.error (.ProjectError .ProjectNameTaken),
        [.readOwnerExists, .readNameExists], World.clean⟩) ∧
    (deploy_project_handler
        ⟨false, false, true, ⟨none, ⟨true, true, ""⟩, .ok⟩,
          ⟨true, .ok, .ok 1, .ok "", .ok (), .ok, true, true, none, ⟨true, true, ""⟩, .ok⟩,
          .success, .ok, .ok, true, none, ⟨true, true, true, true, true, true⟩, "pw",
          true, true, true, .ok, .ok, .ok⟩
        "hangar" "alice"
        ⟨"app", some "img", none, [], none, none, some true⟩ =
      ⟨.error (.DatabaseError .DatabaseAlreadyExists),
        [.readOwnerExists, .readNameExists, .readDbExists], World.clean⟩) ∧
    (deploy_project_handler
        ⟨false, false, false, ⟨none, ⟨true, true, ""⟩, .ok⟩,
          ⟨true, .ok, .ok 1, .ok "", .ok (), .ok, true, true, none, ⟨true, true, ""⟩, .ok⟩,
          .success, .ok, .ok, true, none, ⟨true, true, true, true, true, true⟩, "pw",
          true, true, true, .ok, .ok, .ok⟩
        "hangar" "alice"
        ⟨"app", some "img", none, ["alice"], none, none, none⟩ =
      ⟨.error (.ProjectError .OwnerCannotBeParticipant),
        [.readOwnerExists, .readNameExists], World.clean⟩) := by
  refine ⟨?_, ?_, ?_, ?_, ?_, ?_, ?_⟩
  · exact (C8_validation_before_side_effects _ _ _ _).1 _ (by decide)
  · exact (C8_validation_before_side_effects _ _ _ _).2.1 [("PATH", "v")] _ (by decide)
      rfl (by decide)
  · exact (C8_validation_before_side_effects _ _ _ _).2.2.1 "etc/x" _ (by decide)
      (fun _vars h => by cases h) rfl (by decide)
  · exact (C8_validation_before_side_effects _ _ _ _).2.2.2.1
      (validationsPass_of _ (by decide) rfl rfl) rfl
  · exact (C8_validation_before_side_effects _ _ _ _).2.2.2.2.1
      (validationsPass_of _ (by decide) rfl rfl) rfl rfl
  · exact (C8_validation_before_side_effects _ _ _ _).2.2.2.2.2.1
      (validationsPass_of _ (by decide) rfl rfl) rfl rfl rfl rfl
  · exact (C8_validation_before_side_effects _ _ _ _).2.2.2.2.2.2.1
      (validationsPass_of _ (by decide) rfl rfl) rfl rfl rfl (by decide)

/-- C2: purging an owned project with a linked tenant database executes, in
this exact order: secondary-engine database drop, user drop, database
metadata-row delete, container removal, volume removal (a volume is
recorded), image removal, and last the project metadata-row delete.  The
attempted-operation trace is always a prefix of that sequence; on success it
is exactly that sequence; and whenever some operation of the sequence did not
run, the handler returned an error (a failing step stops the sequence). -/
theorem C2_purge_order (env : PurgeEnv) (project_id : Int) (p : Project)
    (d : DatabaseRec) (path vn : String)
    (hproj : env.projectLookup = some p)
    (hlink : env.linkedDb = some d)
    (hlook : env.deprov.dbLookup = some d)
    (hvn1 : valid_identifier d.database_name = true)
    (hvn2 : valid_identifier d.username = true)
    (hpv : p.persistent_volume_path = some path)
    (hv : p.volume_name = some vn) :
    List.IsPrefix (purge_project_handler env project_id).2 (purgeCanonical p d vn) ∧
    ((purge_project_handler env project_id).1 = .ok () →
      (purge_project_handler env project_id).2 = purgeCanonical p d vn) ∧
    ((purge_project_handler env project_id).2 ≠ purgeCanonical p d vn →
      ∃ e, (purge_project_handler env project_id).1 = .error e) := by
  have hguard : (!valid_identifier d.database_name || !valid_identifier d.username) = false := by
    simp [hvn1, hvn2]
  unfold purge_project_handler deprovision_database execute_mariadb_deprovisioning
  rw [hproj, hlink, hlook]
  dsimp only
  rw [hguard, hpv, hv]
  simp only [Bool.false_eq_true, if_false, Option.isSome_some, eq_self_iff_true, if_true]
  cases hacq : env.deprov.maria.acquireOk with
  | false =>
      refine ⟨⟨purgeCanonical p d vn, ?_⟩, ?_, fun _ => ⟨.DatabaseError .DeprovisioningFailed, ?_⟩⟩ <;>
        simp [purgeCanonical]
  | true =>
  cases hdb : env.deprov.maria.dropDbOk with
  | false =>
      refine ⟨⟨(purgeCanonical p d vn).drop 1, ?_⟩, ?_,
          fun _ => ⟨.DatabaseError .DeprovisioningFailed, ?_⟩⟩ <;>
        simp [purgeCanonical]
  | true =>
  cases hdu : env.deprov.maria.dropUserOk with
  | false =>
      refine ⟨⟨(purgeCanonical p d vn).drop 2, ?_⟩, ?_,
          fun _ => ⟨.DatabaseError .DeprovisioningFailed, ?_⟩⟩ <;>
        simp [purgeCanonical]
  | true =>
  cases hdel : env.deprov.deleteDbRowOk with
  | false =>
      refine ⟨⟨(purgeCanonical p d vn).drop 3, ?_⟩, ?_,
          fun _ => ⟨.InternalServerError, ?_⟩⟩ <;>
        simp [purgeCanonical]
  | true =>
  cases hrc : remove_container env.stopContainerResp env.removeContainerResp with
  | error e =>
      refine ⟨⟨(purgeCanonical p d vn).drop 4, ?_⟩, ?_, fun _ => ⟨e, ?_⟩⟩ <;>
        simp [purgeCanonical]
  | ok _ =>
  cases hrv : env.removeVolumeResult with
  | some e =>
      refine ⟨⟨(purgeCanonical p d vn).drop 5, ?_⟩, ?_, fun _ => ⟨e, ?_⟩⟩ <;>
        simp [purgeCanonical]
  | none =>
  cases hri : remove_image env.removeImageResp with
  | error e =>
      refine ⟨⟨(purgeCanonical p d vn).drop 6, ?_⟩, ?_, fun _ => ⟨e, ?_⟩⟩ <;>
        simp [purgeCanonical]
  | ok _ =>
  cases hdp : env.deleteProjectRowResult with
  | some e =>
      refine ⟨⟨[], ?_⟩, ?_, fun _ => ⟨e, ?_⟩⟩ <;> simp [purgeCanonical]
  | none =>
      refine ⟨⟨[], ?_⟩, fun _ => ?_, fun h => absurd ?_ h⟩ <;> simp [purgeCanonical]

/-- Witness for C2 at a concrete purge in which every step succeeds. -/
theorem C2_purge_order_witness :
    (purge_project_handler
        ⟨some ⟨1, "app", "alice", "hangar-app", "img:1", some "/data", some "vol-app"⟩,
          some ⟨2, "alice", "hangardb_alice", "hangardb_alice", some 1⟩,
          ⟨some ⟨2, "alice", "hangardb_alice", "hangardb_alice", some 1⟩,
            ⟨true, true, true, true, true, true⟩, true⟩,
          .ok, .ok, none, .ok, none⟩ 1).2 =
      purgeCanonical ⟨1, "app", "alice", "hangar-app", "img:1", some "/data", some "vol-app"⟩
        ⟨2, "alice", "hangardb_alice", "hangardb_alice", some 1⟩ "vol-app" := by
  exact (C2_purge_order _ 1 _ _ "/data" "vol-app" rfl rfl rfl (by decide) (by decide)
    rfl rfl).2.1 (by decide)

/-- C1 (code-bug exhibit): a deploy in which validation, pull, scan, container
creation and start, the transaction, the project insert — everything up to
participant linking — succeed, and then the participant insert fails.  The
handler rolls the transaction back and returns the error, but spawns no
container or image cleanup: the trace ends at the rollback with no
removeContainer/removeImage, and the final state has no project row yet a
still-present running container and a still-present image — exactly the
dangling state the claim (and §4.6 of the spec, which requires
container/image cleanup in this case) rules out. -/
theorem C1_participant_failure_leaves_resources :
    (deploy_project_handler
        ⟨false, false, false, ⟨none, ⟨true, true, ""⟩, .ok⟩,
          ⟨true, .ok, .ok 1, .ok "", .ok (), .ok, true, true, none, ⟨true, true, ""⟩, .ok⟩,
          .success, .ok, .ok, true, none, ⟨true, true, true, true, true, true⟩, "pw",
          true, false, true, .ok, .ok, .ok⟩
        "hangar" "alice"
        ⟨"app", some "nginx:latest", none, ["bob"], none, none, none⟩).result =
      .error .InternalServerError ∧
    (deploy_project_handler
        ⟨false, false, false, ⟨none, ⟨true, true, ""⟩, .ok⟩,
          ⟨true, .ok, .ok 1, .ok "", .ok (), .ok, true, true, none, ⟨true, true, ""⟩, .ok⟩,
          .success, .ok, .ok, true, none, ⟨true, true, true, true, true, true⟩, "pw",
          true, false, true, .ok, .ok, .ok⟩
        "hangar" "alice"
        ⟨"app", some "nginx:latest", none, ["bob"], none, none, none⟩).world =
      ⟨false, true, true, true⟩ ∧
    (deploy_project_handler
        ⟨false, false, false, ⟨none, ⟨true, true, ""⟩, .ok⟩,
          ⟨true, .ok, .ok 1, .ok "", .ok (), .ok, true, true, none, ⟨true, true, ""⟩, .ok⟩,
          .success, .ok, .ok, true, none, ⟨true, true, true, true, true, true⟩, "pw",
          true, false, true, .ok, .ok, .ok⟩
        "hangar" "alice"
        ⟨"app", some "nginx:latest", none, ["bob"], none, none, none⟩).trace =
      [.readOwnerExists, .readNameExists, .pullImage "nginx:latest",
        .scanImage "nginx:latest", .createContainer "hangar-app", .beginTx,
        .insertProject, .insertParticipants, .rollbackTx] := by
  refine ⟨?_, ?_, ?_⟩ <;> decide

end Hangar
